import Mathlib

/-!
Verification development for the qt-brbooth model-conversion scripts
(`convert_yolo.py`, `download_tflite_model.py`, `tools/build_trt_engine.py`,
`tools/export_mediapipe_hands.py`).

Python strings are modelled as `List Char`; the interaction of each script with
its external framework (model loading, export, engine building, the
filesystem) is modelled by an explicit environment record whose fields give
the outcome of each external call, and each script body is translated into a
pure function from that environment (and the argument vector) to an outcome:
an exit code together with the list of printed lines, or an unhandled
exception, plus a trace of the external/filesystem events the run performed.
-/

/-- The characters of the suffix `.pt` used by `convert_yolo.py`. -/
def ptChars : List Char := ['.', 'p', 't']

/-- The characters of the suffix `.onnx` substituted by
`model_name.replace(.pt, .onnx)` in `convert_yolo.py` line 33. -/
def onnxChars : List Char := ['.', 'o', 'n', 'n', 'x']

/-- Model of the Python call `s.replace(.pt, .onnx)`: left-to-right scan replacing every
non-overlapping occurrence of `.pt` by `.onnx` (CPython `str.replace`
semantics, specialised to the literal arguments of `convert_yolo.py`
line 33). -/
def replacePtOnnx : List Char → List Char
  | '.' :: 'p' :: 't' :: rest => '.' :: 'o' :: 'n' :: 'n' :: 'x' :: replacePtOnnx rest
  | c :: rest => c :: replacePtOnnx rest
  | [] => []

/-- The number of occurrences of `.pt` replaced by `replacePtOnnx`
(same left-to-right scan). -/
def countPt : List Char → Nat
  | '.' :: 'p' :: 't' :: rest => 1 + countPt rest
  | _ :: rest => countPt rest
  | [] => 0

/-- Model of the Python call `model_name.endswith(.pt)` (`convert_yolo.py` line 83). -/
def endswithPt (s : List Char) : Bool := decide (ptChars <:+ s)

/-- The name-normalization step of `convert_yolo.py` lines 81-84:
`if not model_name.endswith(.pt): model_name += .pt`. -/
def normalizePt (s : List Char) : List Char :=
  if endswithPt s then s else s ++ ptChars


/-! ## Process outcomes -/

/-- The kinds of Python exception the scripts distinguish in their handlers. -/
inductive PyExc where
  | importError
  | otherError
deriving DecidableEq

/-- Outcome of one script process: a `sys.exit` with a code and the lines
printed, or an exception that no handler in the script catches (CPython then
prints a traceback and exits with status 1). -/
inductive ScriptOutcome where
  | exited (code : Nat) (printed : List (List Char))
  | unhandled (exc : PyExc) (printed : List (List Char))
deriving DecidableEq

/-- The process exit status of an outcome; an unhandled exception makes
CPython exit with status 1. -/
def exitCode : ScriptOutcome → Nat
  | .exited c _ => c
  | .unhandled _ _ => 1

/-- Whether the run ended in an exception no handler of the script caught. -/
def raisedUnhandled : ScriptOutcome → Bool
  | .exited _ _ => false
  | .unhandled _ _ => true

/-- The lines the script itself printed (an unhandled exception leaves only
the interpreter traceback, which is not a script print). -/
def outcomePrints : ScriptOutcome → List (List Char)
  | .exited _ p => p
  | .unhandled _ p => p

/-! ## `convert_yolo.py` -/

/-- Outcomes of the external calls `convert_yolo.py` makes: whether the
`from ultralytics import YOLO` at module level (line 13) succeeds, what
`YOLO(model_name)` (line 30) and `model.export(...)` (line 42) raise if
anything, and whether `os.path.exists(output_name)` (line 45) holds after the
export call. -/
structure YoloEnv where
  ultralyticsInstalled : Bool
  loadResult : Option PyExc
  exportResult : Option PyExc
  outputExists : Bool
deriving DecidableEq

/-- The success print of `convert_yolo.py` line 47; it is the fixed prefix
followed by the resolved output filename, so it contains that filename. -/
def yoloSuccessLine (out : List Char) : List Char :=
  "\n✓ Success! ONNX model created: ".data ++ out

/-- Model of `convert_model`, `convert_yolo.py` lines 17-66, returning the boolean
result together with the printed lines in order.  Exception text interpolated
from a caught exception object is elided, and apostrophes and quote marks in
message literals are dropped; otherwise each `print` of the source appears as
one element. -/
def convert_model (env : YoloEnv) (model_name : List Char)
    (output_name : Option (List Char)) : Bool × List (List Char) :=
  let pre := [("Loading YOLOv8 model: ".data ++ model_name),
              "Note: This will download the model if it is not already cached.".data]
  match env.loadResult with
  | some PyExc.importError =>
      (false, pre ++ ["\n✗ Error: ultralytics package not found!".data,
                      "Please install it with: pip install ultralytics".data])
  | some PyExc.otherError =>
      (false, pre ++ ["\n✗ Error during conversion: ".data])
  | none =>
      let out := output_name.getD (replacePtOnnx model_name)
      let pre2 := pre ++ ["\nConverting to ONNX format...".data,
                          ("Output file: ".data ++ out)]
      match env.exportResult with
      | some PyExc.importError =>
          (false, pre2 ++ ["\n✗ Error: ultralytics package not found!".data,
                           "Please install it with: pip install ultralytics".data])
      | some PyExc.otherError =>
          (false, pre2 ++ ["\n✗ Error during conversion: ".data])
      | none =>
          if env.outputExists then
            (true, pre2 ++ [yoloSuccessLine out,
                            "  File size: ".data,
                            "\nNext steps:".data,
                            ("  1. Copy ".data ++ out ++ " to your qt-brbooth/models/ directory".data),
                            "  2. Ensure it is named yolov8n-seg.onnx (or update the path in code)".data])
          else
            (false, pre2 ++ ("\n✗ Error: Output file ".data ++ out ++ " was not created".data) :: [])

/-- The model-name resolution of `convert_yolo.py` lines 78-84: default
`yolov8n-seg.pt` when no command-line argument is given; otherwise the first
argument normalized by appending `.pt` when that suffix is absent.
`argv` stands for `sys.argv[1:]`. -/
def yolo_model_name_of_argv (argv : List (List Char)) : List Char :=
  match argv with
  | [] => "yolov8n-seg.pt".data
  | a :: _ => normalizePt a

/-- The banner prints of `convert_yolo.py` lines 69-77. -/
def yoloBanner : List (List Char) :=
  [List.replicate 60 '=',
   "YOLOv8-seg Model Converter".data,
   List.replicate 60 '=',
   "\nAvailable models:".data,
   "  - yolov8n-seg.pt  (nano - smallest, fastest)".data,
   "  - yolov8s-seg.pt  (small - balanced)".data,
   "  - yolov8m-seg.pt  (medium - better accuracy)".data,
   "  - yolov8l-seg.pt  (large - high accuracy)".data,
   "  - yolov8x-seg.pt  (extra large - highest accuracy)".data,
   ('\n' :: List.replicate 60 '=')]

/-- The whole `convert_yolo.py` process: the module-level
`from ultralytics import YOLO` (line 13) runs before anything else, so when
the package is absent the `ImportError` is unhandled (the handler inside
`convert_model` is never reached); otherwise `__main__` resolves the model
name, runs `convert_model` with `output_name=None`, and exits 0 on success,
1 on failure (line 91). -/
def convert_yolo_script (env : YoloEnv) (argv : List (List Char)) : ScriptOutcome :=
  if env.ultralyticsInstalled then
    let model_name := yolo_model_name_of_argv argv
    let r := convert_model env model_name none
    ScriptOutcome.exited (if r.1 then 0 else 1)
      (yoloBanner ++ [("\nConverting: ".data ++ model_name),
                      "(This may take a few minutes on first run as it downloads the model)\n".data]
                 ++ r.2)
  else
    ScriptOutcome.unhandled PyExc.importError []

/-- A concrete environment in which every external call of `convert_yolo.py`
succeeds. -/
def yoloEnvAllOk : YoloEnv :=
  { ultralyticsInstalled := true, loadResult := none,
    exportResult := none, outputExists := true }

/-! ## `tools/build_trt_engine.py` -/

/-- The external/library and file calls `build_engine` performs, in order, as
observable events. -/
inductive TrtEvent where
  | createBuilder
  | createNetwork
  | createParser
  | openRead (path : List Char)
  | parseCall
  | createConfig
  | buildCall
  | openWrite (path : List Char)
  | writeEngine
deriving DecidableEq

/-- Outcomes of the external calls of `tools/build_trt_engine.py`: whether
`import tensorrt` at module level (line 3) succeeds, whether `parser.parse`
(line 17) returns true, the error lines the parser exposes when it fails
(lines 18-19), and the result of `builder.build_serialized_network`
(line 29) — `none` models the call returning Python `None`. -/
structure TrtEnv where
  tensorrtInstalled : Bool
  parseOk : Bool
  parserErrors : List (List Char)
  buildResult : Option (List Nat)
deriving DecidableEq

/-- Model of `build_engine`, `tools/build_trt_engine.py` lines 7-41: returns the
boolean result, the ordered trace of library/file events, and the printed
lines. -/
def build_engine (env : TrtEnv) (onnx_path engine_path : List Char) :
    Bool × List TrtEvent × List (List Char) :=
  let ev0 := [TrtEvent.createBuilder, TrtEvent.createNetwork, TrtEvent.createParser]
  let pr0 := [("Loading ONNX file: ".data ++ onnx_path)]
  let ev1 := ev0 ++ [TrtEvent.openRead onnx_path, TrtEvent.parseCall]
  if env.parseOk then
    let ev2 := ev1 ++ [TrtEvent.createConfig, TrtEvent.buildCall]
    let pr1 := pr0 ++ ["Building TensorRT engine (this may take a few minutes)...".data]
    match env.buildResult with
    | none => (false, ev2, pr1 ++ ["Failed to build engine".data])
    | some _ =>
        (true, ev2 ++ [TrtEvent.openWrite engine_path, TrtEvent.writeEngine],
         pr1 ++ [("Engine saved to: ".data ++ engine_path)])
  else
    (false, ev1, pr0 ++ env.parserErrors)

/-- The hard-coded input path of `tools/build_trt_engine.py` line 44. -/
def trtOnnxFile : List Char := "models/yolov8n.onnx".data

/-- The hard-coded output path of `tools/build_trt_engine.py` line 45. -/
def trtEngineFile : List Char := "models/yolov8n_fp16.engine".data

/-- The whole `tools/build_trt_engine.py` process: `import tensorrt` runs at
module level (unhandled `ImportError` when absent); `__main__` (lines 43-51)
checks `Path(onnx_file).exists()` before calling `build_engine` and exits 1
straight away when the file is missing, so in that case the event trace is
empty; otherwise the exit code is 0 iff `build_engine` returned true. -/
def build_trt_engine_script (env : TrtEnv) (onnxExists : Bool) :
    ScriptOutcome × List TrtEvent :=
  if env.tensorrtInstalled then
    if onnxExists then
      let r := build_engine env trtOnnxFile trtEngineFile
      (ScriptOutcome.exited (if r.1 then 0 else 1) r.2.2, r.2.1)
    else
      (ScriptOutcome.exited 1 [("Error: ".data ++ trtOnnxFile ++ " not found!".data)], [])
  else
    (ScriptOutcome.unhandled PyExc.importError [], [])

/-! ## `download_tflite_model.py` -/

/-- Which of the three model-acquisition attempts of
`download_tflite_model.py` produced the model that is exported. -/
inductive SegModel where
  | hub
  | simple
  | minimal
deriving DecidableEq

/-- Outcomes of the external calls of `download_tflite_model.py`: whether
`import numpy` at module level (line 8) and `import tensorflow` inside
`main` (line 172) succeed, whether the `tensorflow_hub` import inside `main`
(line 178) succeeds, whether each try-block of the three model-acquisition
attempts raises (the hub download, lines 14-21; the simple model,
lines 31-61; the minimal model, lines 71-88), the bytes
`converter.convert()` returns in `convert_to_tflite` (line 113, `none` when
that try-block raises before the output file is opened), and whether the
`test_model` try-block (lines 132-161) succeeds. -/
structure TfEnv where
  numpyInstalled : Bool
  tensorflowInstalled : Bool
  hubImportOk : Bool
  downloadRaises : Bool
  simpleRaises : Bool
  minimalRaises : Bool
  convertResult : Option (List Nat)
  testOk : Bool
deriving DecidableEq

/-- Model of `create_minimal_model`, `download_tflite_model.py` lines 64-92: build
the 2-class minimal network, or return `None` when its try-block raises.
(The console prints of the three acquisition helpers are not traced.) -/
def create_minimal_model (env : TfEnv) : Option SegModel :=
  if env.minimalRaises then none else some SegModel.minimal

/-- Model of `create_simple_segmentation_model`, `download_tflite_model.py`
lines 27-62: build the 21-class encoder/decoder network, or fall back to
`create_minimal_model` when its try-block raises. -/
def create_simple_segmentation_model (env : TfEnv) : Option SegModel :=
  if env.simpleRaises then create_minimal_model env else some SegModel.simple

/-- Model of `download_deeplabv3_model`, `download_tflite_model.py` lines 10-25:
load the registry model via `tensorflow_hub`, or fall back to
`create_simple_segmentation_model` when the try-block raises. -/
def download_deeplabv3_model (env : TfEnv) : Option SegModel :=
  if env.downloadRaises then create_simple_segmentation_model env else some SegModel.hub

/-- Filesystem writes as observable events. -/
inductive FsEvent where
  | openWrite (path : List Char)
  | write (path : List Char) (data : List Nat)
deriving DecidableEq

/-- Model of `convert_to_tflite`, `download_tflite_model.py` lines 94-126: the
converter is built and `converter.convert()` called before
`open(output_path, wb)`, all inside one try-block, so when the conversion
raises the function returns `False` and no filesystem event occurs; on
success the returned bytes are written to `output_path` and `True` is
returned.  Returns the boolean result, the filesystem events in order, and
the printed lines.  The in-memory model handle does not affect which branch
runs. -/
def convert_to_tflite (env : TfEnv) (model : SegModel) (output_path : List Char) :
    Bool × List FsEvent × List (List Char) :=
  let pr0 := ["Converting model to TensorFlow Lite format...".data]
  match model, env.convertResult with
  | _, none => (false, [], pr0 ++ ["Error converting model: ".data])
  | _, some bytes =>
      (true, [FsEvent.openWrite output_path, FsEvent.write output_path bytes],
       pr0 ++ [("Model saved to: ".data ++ output_path)])

/-- Model of `main`, `download_tflite_model.py` lines 163-210: check the
`tensorflow` import (printing the install instruction and returning `False`
when it is absent), acquire a model through the fallback chain, convert it,
smoke-test it, and report success.  Returns the boolean result, the
filesystem events, and the printed lines (prints of the helper functions and
of `test_model` are not traced). -/
def tflite_main (env : TfEnv) : Bool × List FsEvent × List (List Char) :=
  let banner := ["TensorFlow Lite DeepLabv3 Model Converter".data,
                 List.replicate 40 '=']
  if env.tensorflowInstalled then
    let hubpr := if env.hubImportOk then ["TensorFlow Hub version: ".data]
                 else ["Warning: TensorFlow Hub import failed: ".data,
                       "Will use fallback model creation approach...".data]
    let pre := banner ++ ["TensorFlow version: ".data] ++ hubpr
    match download_deeplabv3_model env with
    | none => (false, [], pre)
    | some m =>
        let c := convert_to_tflite env m "deeplabv3.tflite".data
        if c.1 then
          if env.testOk then
            (true, c.2.1,
             pre ++ c.2.2 ++ ["SUCCESS! Model conversion completed.".data,
                              ("Model file: ".data ++ "deeplabv3.tflite".data),
                              "\nNext steps:".data,
                              "1. Copy the .tflite file to your Qt project directory".data,
                              "2. Use the Load Model button in the TFLite Segmentation tab".data,
                              "3. Select your camera and start segmentation".data])
          else (false, c.2.1, pre ++ c.2.2)
        else (false, c.2.1, pre ++ c.2.2)
  else
    (false, [],
     banner ++ ["Error: ".data,
                "Please install required packages:".data,
                "pip install tensorflow tensorflow-hub".data])

/-- The whole `download_tflite_model.py` process: `import numpy` at module
level (line 8) raises an unhandled `ImportError` when numpy is absent;
otherwise `__main__` (lines 212-214) runs `main` and exits 0 iff it returned
`True`. -/
def download_tflite_script (env : TfEnv) : ScriptOutcome × List FsEvent :=
  if env.numpyInstalled then
    let r := tflite_main env
    (ScriptOutcome.exited (if r.1 then 0 else 1) r.2.2, r.2.1)
  else
    (ScriptOutcome.unhandled PyExc.importError [], [])


/-! ## `tools/export_mediapipe_hands.py` -/

/-- The exceptions `export_hand_landmark` raises itself. -/
inductive MpExc where
  | valueError
  | fileNotFoundError
deriving DecidableEq

/-- The side-effecting calls of `export_hand_landmark` as observable
events. -/
inductive MpEvent where
  | mkdirParents (path : List Char)
  | convertCall (src dst : List Char)
deriving DecidableEq

/-- The `MODEL_FILES` dict of `tools/export_mediapipe_hands.py` lines 15-18;
`none` models the `KeyError` the lookup on line 22 raises for other keys. -/
def MODEL_FILES (t : List Char) : Option (List Char) :=
  if t = "lite".data then some "hand_landmark_lite.tflite".data
  else if t = "full".data then some "hand_landmark_full.tflite".data
  else none

/-- Model of `MODEL_DIR`, `tools/export_mediapipe_hands.py` lines 12-13:
`Path(mp.__file__).parent / "modules" / "hand_landmark"`.  The mediapipe
package directory depends on the installation; it is modelled by a fixed
symbolic prefix, which no claim depends on. -/
def MODEL_DIR : List Char := "mediapipe/modules/hand_landmark/".data

/-- The parent directory of a path (`output_path.parent`): everything up to
and including the last `/`. -/
def parentDir (p : List Char) : List Char :=
  (p.reverse.dropWhile (fun c => c != '/')).reverse

/-- Model of `export_hand_landmark`, `tools/export_mediapipe_hands.py` lines 21-32:
an unknown `model_type` makes the `MODEL_FILES` lookup raise `KeyError`,
re-raised as `ValueError`; a missing bundled tflite file raises
`FileNotFoundError`; both happen before `output_path.parent.mkdir` and the
`convert` call, so on either error the event trace is empty.  `fsExists`
models `Path.exists`. -/
def export_hand_landmark (fsExists : List Char → Bool)
    (output_path model_type : List Char) : Except MpExc Unit × List MpEvent :=
  match MODEL_FILES model_type with
  | none => (Except.error MpExc.valueError, [])
  | some model_name =>
      let tflite_path := MODEL_DIR ++ model_name
      if fsExists tflite_path then
        (Except.ok (), [MpEvent.mkdirParents (parentDir output_path),
                        MpEvent.convertCall tflite_path output_path])
      else
        (Except.error MpExc.fileNotFoundError, [])

/-- Result of the argparse configuration of
`tools/export_mediapipe_hands.py` lines 36-39. -/
inductive MpParse where
  | parsed (output : List Char) (model : List Char)
  | usageError
deriving DecidableEq

/-- The argparse surface of `tools/export_mediapipe_hands.py` lines 36-39,
modelled from its two declared options: `--output` (required, takes a
value) and `--model` (takes a value restricted to the choices `lite`,
`full`, default `full`).  Any other token, a flag missing its value, a
value outside the choices, or a missing required `--output` is an argparse
usage error; argparse reports those by exiting the process with status 2. -/
def mp_parse_args : List (List Char) → Option (List Char) → List Char → MpParse
  | [], out, model =>
      match out with
      | some o => MpParse.parsed o model
      | none => MpParse.usageError
  | a :: rest, out, model =>
      if a = "--output".data then
        match rest with
        | v :: rest2 => mp_parse_args rest2 (some v) model
        | [] => MpParse.usageError
      else if a = "--model".data then
        match rest with
        | v :: rest2 =>
            if v = "lite".data ∨ v = "full".data then mp_parse_args rest2 out v
            else MpParse.usageError
        | [] => MpParse.usageError
      else MpParse.usageError

/-- The whole `tools/export_mediapipe_hands.py` process: `import mediapipe`
and `from tflite2onnx import convert` run at module level (lines 8-9,
unhandled `ImportError` when either is absent); `main` (lines 35-43) parses
the arguments (argparse exits with status 2 on a usage error) and calls
`export_hand_landmark` with no surrounding handler, so any exception it
raises is unhandled. -/
def export_mediapipe_script (depsInstalled : Bool) (fsExists : List Char → Bool)
    (argv : List (List Char)) : ScriptOutcome × List MpEvent :=
  if depsInstalled then
    match mp_parse_args argv none "full".data with
    | MpParse.usageError => (ScriptOutcome.exited 2 ["usage: ".data], [])
    | MpParse.parsed out model =>
        match export_hand_landmark fsExists out model with
        | (Except.ok _, evs) => (ScriptOutcome.exited 0 [], evs)
        | (Except.error _, evs) => (ScriptOutcome.unhandled PyExc.otherError [], evs)
  else
    (ScriptOutcome.unhandled PyExc.importError [], [])

/-! ## Lemmas about the replace-all scan -/

theorem replacePtOnnx_pt_append (r : List Char) :
    replacePtOnnx (ptChars ++ r) = onnxChars ++ replacePtOnnx r := rfl

theorem countPt_pt_append (r : List Char) :
    countPt (ptChars ++ r) = 1 + countPt r := rfl

theorem replacePtOnnx_cons_of_no_match (c : Char) (t : List Char)
    (h : ∀ r, c :: t ≠ ptChars ++ r) :
    replacePtOnnx (c :: t) = c :: replacePtOnnx t := by
  rw [replacePtOnnx.eq_def]
  split
  · rename_i rest heq
    exact absurd heq (h rest)
  · rename_i c2 rest heq
    cases heq
    rfl
  · rename_i heq
    exact absurd heq (List.cons_ne_nil c t)

theorem countPt_cons_of_no_match (c : Char) (t : List Char)
    (h : ∀ r, c :: t ≠ ptChars ++ r) :
    countPt (c :: t) = countPt t := by
  rw [countPt.eq_def]
  split
  · rename_i rest heq
    exact absurd heq (h rest)
  · rename_i c2 rest heq
    cases heq
    rfl
  · rename_i heq
    exact absurd heq (List.cons_ne_nil c t)

theorem length_replacePtOnnx_aux :
    ∀ (n : Nat) (s : List Char), s.length ≤ n →
      (replacePtOnnx s).length = s.length + 2 * countPt s := by
  intro n
  induction n with
  | zero =>
      intro s hs
      have : s = [] := List.length_eq_zero.mp (Nat.le_zero.mp hs)
      subst this
      rfl
  | succ n ih =>
      intro s hs
      match s with
      | [] => rfl
      | c :: t =>
          by_cases hm : ∃ r, c :: t = ptChars ++ r
          · rcases hm with ⟨r, hr⟩
            have hlen : r.length ≤ n := by
              have := congrArg List.length hr
              simp [ptChars] at this
              simp at hs
              omega
            rw [hr, replacePtOnnx_pt_append, countPt_pt_append]
            have hrec := ih r hlen
            simp [onnxChars, ptChars, List.length_append]
            simp at hrec
            omega
          · push_neg at hm
            rw [replacePtOnnx_cons_of_no_match c t hm, countPt_cons_of_no_match c t hm]
            have hrec := ih t (by simp at hs; omega)
            simp
            omega

/-- The replaced string grows by two characters per replaced occurrence. -/
theorem length_replacePtOnnx (s : List Char) :
    (replacePtOnnx s).length = s.length + 2 * countPt s :=
  length_replacePtOnnx_aux s.length s le_rfl

theorem one_le_countPt_aux :
    ∀ (n : Nat) (s : List Char), s.length ≤ n →
      ∀ a b, s = a ++ ptChars ++ b → 1 ≤ countPt s := by
  intro n
  induction n with
  | zero =>
      intro s hs a b hab
      have : s = [] := List.length_eq_zero.mp (Nat.le_zero.mp hs)
      subst this
      have := congrArg List.length hab
      simp [ptChars] at this
      omega
  | succ n ih =>
      intro s hs a b hab
      by_cases hm : ∃ r, s = ptChars ++ r
      · rcases hm with ⟨r, hr⟩
        rw [hr, countPt_pt_append]
        omega
      · push_neg at hm
        match a, hab with
        | [], hab =>
            exact absurd (by simpa using hab) (hm b)
        | c :: a2, hab =>
            have hab2 : s = c :: (a2 ++ ptChars ++ b) := by simpa using hab
            subst hab2
            have hnm : ∀ r, c :: (a2 ++ ptChars ++ b) ≠ ptChars ++ r := by
              intro r hr
              exact hm r hr
            rw [countPt_cons_of_no_match _ _ hnm]
            exact ih (a2 ++ ptChars ++ b) (by simp at hs; simpa using hs) a2 b rfl

/-- A string containing `.pt` has at least one replaced occurrence. -/
theorem one_le_countPt (a b : List Char) : 1 ≤ countPt (a ++ ptChars ++ b) :=
  one_le_countPt_aux (a ++ ptChars ++ b).length _ le_rfl a b rfl

theorem two_le_countPt_aux :
    ∀ (n : Nat) (s : List Char), s.length ≤ n →
      ∀ a b, s = a ++ ptChars ++ b → (∃ x y, b = x ++ ptChars ++ y) →
        2 ≤ countPt s := by
  intro n
  induction n with
  | zero =>
      intro s hs a b hab _
      have : s = [] := List.length_eq_zero.mp (Nat.le_zero.mp hs)
      subst this
      have := congrArg List.length hab
      simp [ptChars] at this
      omega
  | succ n ih =>
      intro s hs a b hab hocc
      by_cases hm : ∃ r, s = ptChars ++ r
      · rcases hm with ⟨r, hr⟩
        rw [hr, countPt_pt_append]
        have hone : 1 ≤ countPt r := by
          match a, hab with
          | [], hab =>
              have hbr : b = r := by
                rw [hr] at hab
                simpa using List.append_inj_right hab.symm rfl
              rcases hocc with ⟨x, y, hxy⟩
              exact hbr ▸ hxy ▸ one_le_countPt x y
          | c :: a2, hab =>
              have hsplit : r = (List.drop 3 ((c :: a2) ++ ptChars)) ++ b := by
                have h1 : ptChars ++ r = ((c :: a2) ++ ptChars) ++ b := by
                  rw [← hr, hab]
                have h2 := congrArg (List.drop 3) h1
                rw [List.drop_append_eq_append_drop] at h2
                rw [List.drop_append_eq_append_drop] at h2
                have e1 : List.drop 3 ptChars = ([] : List Char) := rfl
                have e2 : 3 - ptChars.length = 0 := rfl
                have e3 : 3 - ((c :: a2) ++ ptChars).length = 0 := by
                  have : ((c :: a2) ++ ptChars).length = a2.length + 1 + 3 := by
                    simp [ptChars]
                  omega
                rw [e1, e2, e3] at h2
                simpa using h2
              rcases hocc with ⟨x, y, hxy⟩
              have hr2 : r = ((List.drop 3 ((c :: a2) ++ ptChars)) ++ x) ++ ptChars ++ y := by
                rw [hsplit, hxy]
                simp [List.append_assoc]
              exact hr2 ▸ one_le_countPt _ y
        omega
      · push_neg at hm
        match a, hab with
        | [], hab =>
            exact absurd (by simpa using hab) (hm b)
        | c :: a2, hab =>
            have hab2 : s = c :: (a2 ++ ptChars ++ b) := by simpa using hab
            subst hab2
            rw [countPt_cons_of_no_match _ _ (fun r hr => hm r hr)]
            exact ih (a2 ++ ptChars ++ b) (by simp at hs; simpa using hs) a2 b rfl hocc

/-- A string with a `.pt` occurrence whose remainder itself contains `.pt`
has at least two replaced occurrences. -/
theorem two_le_countPt (a x y : List Char) :
    2 ≤ countPt (a ++ ptChars ++ (x ++ ptChars ++ y)) :=
  two_le_countPt_aux _ _ le_rfl a (x ++ ptChars ++ y) rfl ⟨x, y, rfl⟩

/-- When every occurrence of `.pt` in `stem ++ ".pt"` is the final one, the
scan replaces exactly the final extension. -/
theorem replacePtOnnx_only_final (stem : List Char)
    (h : ∀ a b, stem ++ ptChars = a ++ ptChars ++ b → b = []) :
    replacePtOnnx (stem ++ ptChars) = stem ++ onnxChars := by
  induction stem with
  | nil => rfl
  | cons c stem ih =>
      have hnm : ∀ r, c :: (stem ++ ptChars) ≠ ptChars ++ r := by
        intro r hr
        have hr0 : (c :: stem) ++ ptChars = [] ++ ptChars ++ r := by simpa using hr
        have : r = [] := h [] r hr0
        subst this
        have := congrArg List.length hr0
        simp [ptChars] at this
      rw [List.cons_append, replacePtOnnx_cons_of_no_match c _ hnm,
          ih (fun a b hab => h (c :: a) b (by rw [List.cons_append, hab]; rfl))]
      rfl

/-- A non-final occurrence of `.pt` in front of the final extension makes
the replace-all result differ from swapping only the final extension. -/
theorem replacePtOnnx_inner_ne (stem a b : List Char)
    (h : stem ++ ptChars = a ++ ptChars ++ b) (hb : b ≠ []) :
    replacePtOnnx (stem ++ ptChars) ≠ stem ++ onnxChars := by
  have hocc : ∃ x y, b = x ++ ptChars ++ y := by
    have hsuf1 : ptChars <:+ stem ++ ptChars := List.suffix_append stem ptChars
    have hsuf2 : b <:+ stem ++ ptChars := ⟨a ++ ptChars, by rw [h]⟩
    rcases List.suffix_or_suffix_of_suffix hsuf1 hsuf2 with hc | hc
    · rcases hc with ⟨x, hx⟩
      exact ⟨x, [], by simp [← hx]⟩
    · rcases hc with ⟨t, ht⟩
      rcases t with _ | ⟨c1, t⟩
      · exact ⟨[], [], by simp [← ht]⟩
      rcases t with _ | ⟨c2, t⟩
      · have hinj : c1 :: b = '.' :: ['p', 't'] := by simpa [ptChars] using ht
        injection hinj with hc1 hb2
        have h5 : stem ++ ptChars = (a ++ ['.', 'p']) ++ ['t', 'p', 't'] := by
          rw [h, hb2]; simp [ptChars]
        have h6 := List.append_inj' h5 (by simp [ptChars])
        exact absurd h6.2 (by decide)
      rcases t with _ | ⟨c3, t⟩
      · have hinj : c1 :: c2 :: b = '.' :: 'p' :: ['t'] := by simpa [ptChars] using ht
        injection hinj with hc1 hinj
        injection hinj with hc2 hb2
        have h5 : stem ++ ptChars = (a ++ ['.']) ++ ['p', 't', 't'] := by
          rw [h, hb2]; simp [ptChars]
        have h6 := List.append_inj' h5 (by simp [ptChars])
        exact absurd h6.2 (by decide)
      · have hlen : (c1 :: c2 :: c3 :: t).length + b.length = 3 := by
          rw [← List.length_append, ht]; rfl
        have hlen2 : (c1 :: c2 :: c3 :: t).length = t.length + 3 := by simp
        exact absurd (List.length_eq_zero.mp (by omega)) hb
  intro he
  rcases hocc with ⟨x, y, hxy⟩
  have h2 : 2 ≤ countPt (stem ++ ptChars) := by
    rw [h, hxy]
    exact two_le_countPt a x y
  have hl := length_replacePtOnnx (stem ++ ptChars)
  rw [he] at hl
  simp [ptChars, onnxChars] at hl h2
  omega

/-! ## Claim theorems -/

/-- C5: the model-name normalization step of `convert_yolo.py` appends `.pt`
exactly once to every input lacking that suffix, and is idempotent:
applying it twice yields the same string as applying it once. -/
theorem c5_normalize_idempotent :
    (∀ s : List Char, endswithPt s = false → normalizePt s = s ++ ptChars) ∧
    (∀ s : List Char, normalizePt (normalizePt s) = normalizePt s) := by
  constructor
  · intro s h
    simp [normalizePt, h]
  · intro s
    by_cases h : endswithPt s = true
    · simp [normalizePt, h]
    · have hpt : endswithPt (s ++ ptChars) = true :=
        decide_eq_true (List.suffix_append s ptChars)
      simp [normalizePt, h, hpt]

/-- Witness for C5 at the concrete input `yolov8n-seg`. -/
theorem c5_witness :
    normalizePt "yolov8n-seg".data = "yolov8n-seg".data ++ ptChars ∧
    normalizePt (normalizePt "yolov8n-seg".data) = normalizePt "yolov8n-seg".data :=
  ⟨c5_normalize_idempotent.1 "yolov8n-seg".data (by decide),
   c5_normalize_idempotent.2 "yolov8n-seg".data⟩

/-- C2: in `download_tflite_model.py`, when the registry download raises and
the first hand-built network construction raises, the second minimal
hand-built network is returned instead of terminating; in general the first
of the three attempts that raises no exception supplies the model, and with
the first two attempts forced to fail `main` still completes successfully. -/
theorem c2_fallback_chain :
    (∀ env : TfEnv,
        download_deeplabv3_model
            { env with downloadRaises := true, simpleRaises := true, minimalRaises := false }
          = some SegModel.minimal) ∧
    (∀ env : TfEnv,
        download_deeplabv3_model { env with downloadRaises := false } = some SegModel.hub) ∧
    (∀ env : TfEnv,
        download_deeplabv3_model { env with downloadRaises := true, simpleRaises := false }
          = some SegModel.simple) ∧
    (∀ env : TfEnv, ∀ bytes : List Nat,
        (tflite_main
            { env with
                tensorflowInstalled := true
                downloadRaises := true
                simpleRaises := true
                minimalRaises := false
                convertResult := some bytes
                testOk := true }).1 = true) := by
  refine ⟨?_, ?_, ?_, ?_⟩ <;> intros <;>
    simp [download_deeplabv3_model, create_simple_segmentation_model, create_minimal_model,
          tflite_main, convert_to_tflite]

/-- C3: `tools/build_trt_engine.py`, when its hard-coded ONNX input path does
not exist, exits with status 1 before any builder, parser, or file-read
call: the event trace of the run is empty. -/
theorem c3_exit_before_library_calls :
    ∀ env : TrtEnv,
      build_trt_engine_script { env with tensorrtInstalled := true } false
        = (ScriptOutcome.exited 1 [("Error: ".data ++ trtOnnxFile ++ " not found!".data)],
           []) := by
  intro env
  rfl

/-- C9: `export_hand_landmark` raises `ValueError` for every model type
other than `lite` or `full`, and `FileNotFoundError` when the bundled
tflite file is absent; in both cases before creating the output directory
or invoking the converter, so the event trace is empty and the filesystem
unchanged. -/
theorem c9_export_errors_before_effects :
    (∀ t : List Char, MODEL_FILES t = none ↔ (t ≠ "lite".data ∧ t ≠ "full".data)) ∧
    (∀ fsExists out t, MODEL_FILES t = none →
        export_hand_landmark fsExists out t = (Except.error MpExc.valueError, [])) ∧
    (∀ fsExists out t name, MODEL_FILES t = some name →
        fsExists (MODEL_DIR ++ name) = false →
        export_hand_landmark fsExists out t
          = (Except.error MpExc.fileNotFoundError, [])) := by
  refine ⟨?_, ?_, ?_⟩
  · intro t
    unfold MODEL_FILES
    split_ifs with h1 h2 <;> simp_all
  · intro fsExists out t h
    simp [export_hand_landmark, h]
  · intro fsExists out t name h1 h2
    simp [export_hand_landmark, h1, h2]

/-- Witness for C9 at the concrete model types `tiny` and `full` with an
absent bundled file. -/
theorem c9_witness :
    export_hand_landmark (fun _ => false) "models/hand.onnx".data "tiny".data
        = (Except.error MpExc.valueError, []) ∧
    export_hand_landmark (fun _ => false) "models/hand.onnx".data "full".data
        = (Except.error MpExc.fileNotFoundError, []) :=
  ⟨c9_export_errors_before_effects.2.1 (fun _ => false) "models/hand.onnx".data
      "tiny".data (by decide),
   c9_export_errors_before_effects.2.2 (fun _ => false) "models/hand.onnx".data
      "full".data "hand_landmark_full.tflite".data (by decide) rfl⟩

/-- C10: in `convert_to_tflite` the output file is opened only after the
conversion call has returned: when the conversion raises, the function
returns false and no filesystem event occurs; when it succeeds, the returned
bytes are written to the output path and true is returned. -/
theorem c10_convert_to_tflite_file_discipline :
    (∀ env : TfEnv, ∀ m p,
        convert_to_tflite { env with convertResult := none } m p
          = (false, [],
             ["Converting model to TensorFlow Lite format...".data,
              "Error converting model: ".data])) ∧
    (∀ env : TfEnv, ∀ m p bytes,
        convert_to_tflite { env with convertResult := some bytes } m p
          = (true, [FsEvent.openWrite p, FsEvent.write p bytes],
             ["Converting model to TensorFlow Lite format...".data,
              ("Model saved to: ".data ++ p)])) := by
  constructor <;> intros <;> rfl

/-- C4: invoking `convert_yolo.py` with no arguments uses the default model
name `yolov8n-seg.pt`; with an argument, `.pt` is appended exactly when the
argument does not already end with it; and on successful conversion the
printed lines include the success line, which is a fixed prefix followed by
the resolved output filename and hence contains that filename. -/
theorem c4_default_and_success_line :
    (yolo_model_name_of_argv [] = "yolov8n-seg.pt".data) ∧
    (∀ a rest, yolo_model_name_of_argv (a :: rest)
        = (if endswithPt a then a else a ++ ptChars)) ∧
    (∀ out, yoloSuccessLine out = "\n✓ Success! ONNX model created: ".data ++ out) ∧
    (∀ env : YoloEnv, ∀ argv,
        yoloSuccessLine (replacePtOnnx (yolo_model_name_of_argv argv)) ∈
          outcomePrints (convert_yolo_script
            { env with
                ultralyticsInstalled := true
                loadResult := none
                exportResult := none
                outputExists := true } argv)) := by
  refine ⟨rfl, fun a rest => rfl, fun out => rfl, ?_⟩
  intro env argv
  simp [convert_yolo_script, convert_model, outcomePrints, yoloSuccessLine]

/-- C6: a falsy result from the external conversion is a failure: when
`build_serialized_network` returns `None`, `build_engine` returns false
without any write event and the engine-builder script exits with status 1;
when the exported ONNX file is absent after `model.export`, `convert_model`
returns false and `convert_yolo.py` exits with status 1; in neither case is
the empty result treated as success. -/
theorem c6_falsy_results_fail :
    (∀ env : TrtEnv, ∀ onnx engine,
        build_engine { env with parseOk := true, buildResult := none } onnx engine
          = (false,
             [TrtEvent.createBuilder, TrtEvent.createNetwork, TrtEvent.createParser,
              TrtEvent.openRead onnx, TrtEvent.parseCall, TrtEvent.createConfig,
              TrtEvent.buildCall],
             [("Loading ONNX file: ".data ++ onnx),
              "Building TensorRT engine (this may take a few minutes)...".data,
              "Failed to build engine".data])) ∧
    (∀ env : TrtEnv,
        exitCode (build_trt_engine_script
            { env with tensorrtInstalled := true, parseOk := true, buildResult := none }
            true).1 = 1) ∧
    (∀ env : YoloEnv, ∀ m o,
        (convert_model
            { env with loadResult := none, exportResult := none, outputExists := false }
            m o).1 = false) ∧
    (∀ env : YoloEnv, ∀ argv,
        exitCode (convert_yolo_script
            { env with
                ultralyticsInstalled := true
                loadResult := none
                exportResult := none
                outputExists := false } argv) = 1) := by
  refine ⟨?_, ?_, ?_, ?_⟩ <;> intros <;>
    simp [build_engine, build_trt_engine_script, convert_model, convert_yolo_script,
          exitCode]

/-- C8: with `output_name` left as `None`, the resolved output filename of
`convert_model` is the replace-all `replacePtOnnx model_name` (printed in
the `Output file:` line); when `.pt` occurs in the model name only as the
final extension the result is the stem followed by `.onnx`; and a model
name with a non-final occurrence of `.pt` yields a result different from
swapping only the final extension. -/
theorem c8_replace_all :
    (∀ env : YoloEnv, ∀ m : List Char,
        ("Output file: ".data ++ replacePtOnnx m) ∈
          (convert_model { env with loadResult := none } m none).2) ∧
    (∀ stem : List Char, (∀ a b, stem ++ ptChars = a ++ ptChars ++ b → b = []) →
        replacePtOnnx (stem ++ ptChars) = stem ++ onnxChars) ∧
    (∀ stem a b : List Char, stem ++ ptChars = a ++ ptChars ++ b → b ≠ [] →
        replacePtOnnx (stem ++ ptChars) ≠ stem ++ onnxChars) := by
  refine ⟨?_, replacePtOnnx_only_final, replacePtOnnx_inner_ne⟩
  intro env m
  cases hx : env.exportResult with
  | none =>
      cases ho : env.outputExists <;> simp [convert_model, hx, ho]
  | some e =>
      cases e <;> simp [convert_model, hx]

/-- Witness for C8: the empty stem gives an only-final occurrence, and
`a.ptb.pt` has the non-final occurrence `a ++ .pt ++ b.pt`. -/
theorem c8_witness :
    ("Output file: ".data ++ replacePtOnnx "yolov8n-seg.pt".data) ∈
      (convert_model { yoloEnvAllOk with loadResult := none }
        "yolov8n-seg.pt".data none).2 ∧
    replacePtOnnx ([] ++ ptChars) = [] ++ onnxChars ∧
    replacePtOnnx ("a.ptb".data ++ ptChars) ≠ "a.ptb".data ++ onnxChars :=
  ⟨c8_replace_all.1 yoloEnvAllOk "yolov8n-seg.pt".data,
   c8_replace_all.2.1 []
     (fun a b hab => by
       have hlen := congrArg List.length hab
       simp [ptChars] at hlen
       exact List.length_eq_zero.mp (by omega)),
   c8_replace_all.2.2 "a.ptb".data "a".data "b.pt".data (by decide) (by decide)⟩

/-- C1 as stated is false: with ultralytics absent, `convert_yolo.py` fails
at the module-level import, so an unhandled `ImportError` is raised and no
install instruction is printed (the handler printing it sits inside
`convert_model`, which is never reached). -/
theorem c1_counterexample :
    raisedUnhandled
        (convert_yolo_script { yoloEnvAllOk with ultralyticsInstalled := false } [])
      = true ∧
    outcomePrints
        (convert_yolo_script { yoloEnvAllOk with ultralyticsInstalled := false } [])
      = [] := by
  constructor <;> rfl

/-- C1 amended: only `download_tflite_model.py` handles its missing
dependency, printing the `pip install` instruction and exiting with
status 1 without an unhandled exception; `convert_yolo.py`,
`tools/build_trt_engine.py` and `tools/export_mediapipe_hands.py` import
their dependency at module level, so a missing dependency there raises an
unhandled `ImportError` (the process still exits with status 1, but via the
interpreter traceback, with no install instruction printed). -/
theorem c1_amended :
    (∀ env : YoloEnv, ∀ argv,
        convert_yolo_script { env with ultralyticsInstalled := false } argv
          = ScriptOutcome.unhandled PyExc.importError []) ∧
    (∀ env : TrtEnv, ∀ e : Bool,
        build_trt_engine_script { env with tensorrtInstalled := false } e
          = (ScriptOutcome.unhandled PyExc.importError [], [])) ∧
    (∀ fsExists : List Char → Bool, ∀ argv,
        export_mediapipe_script false fsExists argv
          = (ScriptOutcome.unhandled PyExc.importError [], [])) ∧
    (∀ env : TfEnv,
        (tflite_main { env with tensorflowInstalled := false }).1 = false ∧
        (tflite_main { env with tensorflowInstalled := false }).2.1 = [] ∧
        "pip install tensorflow tensorflow-hub".data ∈
          (tflite_main { env with tensorflowInstalled := false }).2.2) ∧
    (∀ env : TfEnv,
        exitCode (download_tflite_script
            { env with numpyInstalled := true, tensorflowInstalled := false }).1 = 1 ∧
        raisedUnhandled (download_tflite_script
            { env with numpyInstalled := true, tensorflowInstalled := false }).1
          = false) := by
  refine ⟨fun env argv => rfl, fun env e => rfl, fun fsExists argv => rfl, ?_, ?_⟩
  · intro env
    refine ⟨rfl, rfl, ?_⟩
    simp [tflite_main]
  · intro env
    exact ⟨rfl, rfl⟩

/-- C7 as stated is false: the landmark exporter has a required `--output`
flag and an optional `--model` flag; invoked with zero arguments its
argparse parsing fails and the process exits with status 2 (not 1), and an
invocation carrying both flags (four argv tokens) is accepted. -/
theorem c7_counterexample :
    (export_mediapipe_script true (fun _ => true) []).1
        = ScriptOutcome.exited 2 ["usage: ".data] ∧
    exitCode (export_mediapipe_script true (fun _ => true) []).1 ≠ 1 ∧
    exitCode (export_mediapipe_script true (fun _ => true) []).1 ≠ 0 ∧
    mp_parse_args ["--output".data, "hand.onnx".data, "--model".data, "lite".data]
        none "full".data
      = MpParse.parsed "hand.onnx".data "lite".data := by
  refine ⟨rfl, ?_, ?_, rfl⟩ <;> decide

/-- C7 amended: `convert_yolo.py` takes zero or one positional argument and
the other two converter scripts take none, all three exiting 0 on success
and 1 on any failure; the landmark exporter instead takes a required
`--output` flag and an optional `--model` flag (choices `lite`/`full`),
exits 2 on an argparse usage error, 0 on success, and 1 otherwise; no
script consults subcommands, configuration files, or environment
variables. -/
theorem c7_amended :
    (∀ env : YoloEnv, ∀ argv,
        exitCode (convert_yolo_script env argv) = 0 ∨
        exitCode (convert_yolo_script env argv) = 1) ∧
    (∀ env : TrtEnv, ∀ e : Bool,
        exitCode (build_trt_engine_script env e).1 = 0 ∨
        exitCode (build_trt_engine_script env e).1 = 1) ∧
    (∀ env : TfEnv,
        exitCode (download_tflite_script env).1 = 0 ∨
        exitCode (download_tflite_script env).1 = 1) ∧
    (∀ d : Bool, ∀ fsExists : List Char → Bool, ∀ argv,
        exitCode (export_mediapipe_script d fsExists argv).1 = 0 ∨
        exitCode (export_mediapipe_script d fsExists argv).1 = 1 ∨
        exitCode (export_mediapipe_script d fsExists argv).1 = 2) ∧
    (mp_parse_args [] none "full".data = MpParse.usageError) ∧
    (∀ o, mp_parse_args ["--output".data, o] none "full".data
        = MpParse.parsed o "full".data) ∧
    (∀ o, mp_parse_args ["--output".data, o, "--model".data, "lite".data] none "full".data
        = MpParse.parsed o "lite".data) := by
  refine ⟨?_, ?_, ?_, ?_, rfl, fun o => ?_, fun o => ?_⟩
  · intro env argv
    cases hi : env.ultralyticsInstalled
    · right; simp [convert_yolo_script, hi, exitCode]
    · cases hr : (convert_model env (yolo_model_name_of_argv argv) none).1
      · right; simp [convert_yolo_script, hi, hr, exitCode]
      · left; simp [convert_yolo_script, hi, hr, exitCode]
  · intro env e
    cases hi : env.tensorrtInstalled
    · right; simp [build_trt_engine_script, hi, exitCode]
    · cases e
      · right; simp [build_trt_engine_script, hi, exitCode]
      · cases hr : (build_engine env trtOnnxFile trtEngineFile).1
        · right; simp [build_trt_engine_script, hi, hr, exitCode]
        · left; simp [build_trt_engine_script, hi, hr, exitCode]
  · intro env
    cases hi : env.numpyInstalled
    · right; simp [download_tflite_script, hi, exitCode]
    · cases hr : (tflite_main env).1
      · right; simp [download_tflite_script, hi, hr, exitCode]
      · left; simp [download_tflite_script, hi, hr, exitCode]
  · intro d fsExists argv
    cases d
    · right; left; rfl
    · cases hp : mp_parse_args argv none "full".data with
      | usageError =>
          right; right; simp [export_mediapipe_script, hp, exitCode]
      | parsed o m =>
          rcases hx : export_hand_landmark fsExists o m with ⟨r, evs⟩
          cases r with
          | error e =>
              right; left; simp [export_mediapipe_script, hp, hx, exitCode]
          | ok u =>
              left; simp [export_mediapipe_script, hp, hx, exitCode]
  · simp [mp_parse_args]
  · simp [mp_parse_args]
